import Mathlib

/-!
Verification of the video frame-sampling pipeline of `backend/app.py`:
a shallow embedding of the `POST /predict/video/frames` handler
(`predict_video_frames`) and proofs about it.

Modelling choices, faithful to the Python source:
* A raw decoded frame is abstracted to a `Nat` code standing for its pixel
  contents; the pipeline never inspects pixels, it only passes frames to the
  external detector, the colour conversion and the JPEG encoder.
* `cv2.VideoCapture` is modelled by `VideoCapture`: the reported frame rate
  `fps` (the value of `int(cap.get(cv2.CAP_PROP_FPS))`, an integer that is `0`
  for a corrupt or undecodable upload) and the ordered list `frames` of frames
  that `cap.read()` successively yields.  `int(cap.get(cv2.CAP_PROP_FRAME_COUNT))`
  is modelled as `frames.length`, i.e. the capture reports the frame count
  accurately.
* The external collaborators (the YOLO model `model.predict` at confidence
  0.25 together with the extraction of its boxes, `cv2.cvtColor`, and
  `cv2.imencode` followed by base64) are parameters, collected in `Env`.
  `detect` returns `Except String` because a detector invocation may raise.
* Python numbers: `fps` and counters are integers; `/` is true division,
  modelled exactly on `ℚ` (floats are abstracted to rationals); `//` is floor
  division, `Int.fdiv`; `%` on non-negative ints is `Nat.mod`.  Python raises
  `ZeroDivisionError` on `x / 0`, which the embedding models explicitly.
* A raised exception is an `Except.error` carrying `str(e)`; the
  `except Exception` clause of the handler turns it into an HTTP 500 with that
  detail string, so the handler result is `Except String FramesResponse`
  (`error` = HTTP 500 `{detail}`, `ok` = HTTP 200 JSON body).
* The handler writes the upload to a `NamedTemporaryFile(delete=False)` and
  calls `os.unlink` only at line 199, on the success path; the second
  component of the result records whether the temporary file still exists
  when the handler returns.
-/

deriving instance DecidableEq for Except

namespace App

/-- A decoded raw frame, abstracted to a code for its pixel contents. -/
abbrev RawFrame := Nat

/-- One detection extracted from a YOLO result box: the dictionary
appended at lines 178-183 of `app.py`. -/
structure Detection where
  className : String
  confidence : ℚ
  bbox : ℚ × ℚ × ℚ × ℚ
  class_id : Nat
deriving Repr, DecidableEq

/-- One element of the `frame_data` list (lines 189-194 of `app.py`). -/
structure FrameRecord where
  frame_number : Nat
  timestamp : ℚ
  detections : List Detection
  frame_image : String
deriving Repr, DecidableEq

/-- The JSON body returned on success (lines 201-209 of `app.py`). -/
structure FramesResponse where
  success : Bool
  fps : Int
  total_frames : Nat
  duration : ℚ
  frame_interval : Int
  frames : List FrameRecord
  message : String
deriving Repr, DecidableEq

/-- Model of `cv2.VideoCapture` opened on the uploaded bytes: the reported
frame rate (0 for a corrupt/undecodable file) and the ordered sequence of
decodable frames. -/
structure VideoCapture where
  fps : Int
  frames : List RawFrame
deriving Repr, DecidableEq

/-- The value of `int(cap.get(cv2.CAP_PROP_FRAME_COUNT))`: the capture is
modelled as reporting the count of decodable frames. -/
def VideoCapture.total_frames (c : VideoCapture) : Nat := c.frames.length

/-- External collaborators of the handler: colour conversion
(`cv2.cvtColor BGR2RGB`), the detector (`model.predict` at conf 0.25 plus
box extraction, which may raise), and JPEG + base64 encoding of a frame. -/
structure Env where
  cvtColor : RawFrame → RawFrame
  detect : RawFrame → Except String (List Detection)
  encodeJpegB64 : RawFrame → String

/-- Line 153 of `app.py`: `frame_interval = max(1, fps // 2)` with Python
floor division. -/
def frame_interval_of (fps : Int) : Int := max 1 (Int.fdiv fps 2)

/-- The `while True` loop of lines 157-196: reads frames in order, keeps the
running `frame_count`, and for each frame with `frame_count % frame_interval
== 0` runs the detector on the colour-converted frame and appends a record
with the original frame JPEG-encoded.  A detector exception propagates and
discards everything accumulated so far, exactly as a raised exception does
in the Python loop. -/
def processFrames (env : Env) (fps : Int) (interval : Nat) :
    List RawFrame → Nat → Except String (List FrameRecord)
  | [], _ => .ok []
  | f :: rest, i =>
    if i % interval = 0 then
      match env.detect (env.cvtColor f) with
      | .error e => .error e
      | .ok dets =>
        match processFrames env fps interval rest (i + 1) with
        | .error e => .error e
        | .ok recs =>
          .ok ({ frame_number := i
                 timestamp := (i : ℚ) / (fps : ℚ)
                 detections := dets
                 frame_image := env.encodeJpegB64 f } :: recs)
    else
      processFrames env fps interval rest (i + 1)

/-- The `/predict/video/frames` handler (lines 133-212 of `app.py`), after
the upload has been written to the temporary file and the capture opened.
`duration = total_frames / fps` at line 150 raises `ZeroDivisionError` when
the reported fps is 0, before any frame is processed.  The temporary file is
unlinked only at line 199 on the success path; the `Bool` component records
whether it still exists when the handler returns (`true` = leaked). -/
def predict_video_frames (env : Env) (c : VideoCapture) :
    Except String FramesResponse × Bool :=
  if c.fps = 0 then
    (.error "division by zero", true)
  else
    match processFrames env c.fps (frame_interval_of c.fps).toNat c.frames 0 with
    | .error e => (.error e, true)
    | .ok recs =>
      (.ok { success := true
             fps := c.fps
             total_frames := c.total_frames
             duration := (c.total_frames : ℚ) / (c.fps : ℚ)
             frame_interval := frame_interval_of c.fps
             frames := recs
             message := "Processed " ++ toString recs.length ++ " frames" },
       false)

/-- Projection of a `FrameRecord` that drops the encoded image, keeping
frame number, timestamp and detections. -/
def stripRecord (r : FrameRecord) : Nat × ℚ × List Detection :=
  (r.frame_number, r.timestamp, r.detections)

/-- Projection of a `FramesResponse` that drops only the `frame_image`
fields of its records. -/
def stripResp (r : FramesResponse) :
    Bool × Int × Nat × ℚ × Int × List (Nat × ℚ × List Detection) × String :=
  (r.success, r.fps, r.total_frames, r.duration, r.frame_interval,
   r.frames.map stripRecord, r.message)

/-- An environment with a trivial detector that always succeeds with no
detections, used to instantiate witnesses. -/
def envTriv : Env :=
  { cvtColor := id
    detect := fun _ => .ok []
    encodeJpegB64 := fun _ => "" }

/-- An environment whose detector raises on every frame. -/
def envFail : Env :=
  { cvtColor := id
    detect := fun _ => .error "detector unavailable"
    encodeJpegB64 := fun _ => "" }

/-- Like `envTriv` but with a different image encoder. -/
def envEnc : Env :=
  { cvtColor := id
    detect := fun _ => .ok []
    encodeJpegB64 := fun _ => "jpegdata" }

/-- A small concrete capture: 2 fps, one decodable frame. -/
def capW2 : VideoCapture := { fps := 2, frames := [5] }

/-- The response the handler produces on `envTriv` and `capW2`. -/
def respW3 : FramesResponse :=
  { success := true, fps := 2, total_frames := 1, duration := (1 : ℚ) / 2,
    frame_interval := 1,
    frames := [{ frame_number := 0, timestamp := 0, detections := [],
                 frame_image := "" }],
    message := "Processed 1 frames" }

/-- The 10-second 30 fps scenario: 300 decodable frames. -/
def cap300 : VideoCapture := { fps := 30, frames := List.replicate 300 0 }

/-- A capture reporting a positive frame rate but yielding no decodable
frames. -/
def capEmpty : VideoCapture := { fps := 30, frames := [] }

/-! Structural lemmas about the frame loop. -/

/-- Mapping over an `Except.error` is the identity. -/
lemma exceptMap_error {ε α β : Type} (f : α → β) (e : ε) :
    (Except.error e : Except ε α).map f = .error e := rfl

/-- Mapping over an `Except.ok` applies the function. -/
lemma exceptMap_ok {ε α β : Type} (f : α → β) (a : α) :
    (Except.ok a : Except ε α).map f = .ok (f a) := rfl

/-- Inversion of a successful handler run: the reported fps was nonzero, the
loop succeeded with exactly the returned records, and every summary field has
the value computed at lines 201-209. -/
lemma predict_ok_inv (env : Env) (c : VideoCapture) (r : FramesResponse)
    (h : (predict_video_frames env c).1 = .ok r) :
    c.fps ≠ 0 ∧
      processFrames env c.fps (frame_interval_of c.fps).toNat c.frames 0 = .ok r.frames ∧
      r.success = true ∧ r.fps = c.fps ∧ r.total_frames = c.frames.length ∧
      r.duration = (c.frames.length : ℚ) / (c.fps : ℚ) ∧
      r.frame_interval = frame_interval_of c.fps := by
  by_cases hf : c.fps = 0
  · simp [predict_video_frames, hf] at h
  · refine ⟨hf, ?_⟩
    cases hp : processFrames env c.fps (frame_interval_of c.fps).toNat c.frames 0 with
    | error e => simp [predict_video_frames, hf, hp] at h
    | ok recs =>
      simp only [predict_video_frames, if_neg hf, hp] at h
      cases h
      simp [VideoCapture.total_frames, hp]

/-- A successful loop run emits exactly the sampled indices, in order: the
frame numbers are the indices `i, i+1, ...` over the remaining frames that
satisfy the sampling predicate. -/
lemma processFrames_ok_map (env : Env) (fps : Int) (interval : Nat) :
    ∀ (l : List RawFrame) (i : Nat) (recs : List FrameRecord),
      processFrames env fps interval l i = .ok recs →
      recs.map FrameRecord.frame_number
        = (List.range' i l.length).filter (fun j => j % interval == 0) := by
  intro l
  induction l with
  | nil =>
    intro i recs h
    simp only [processFrames] at h
    cases h
    simp
  | cons f rest ih =>
    intro i recs h
    rw [List.length_cons, List.range'_succ, List.filter_cons]
    by_cases hmod : i % interval = 0
    · simp only [processFrames, if_pos hmod] at h
      cases hd : env.detect (env.cvtColor f) with
      | error e => rw [hd] at h; cases h
      | ok dets =>
        rw [hd] at h
        cases hp : processFrames env fps interval rest (i + 1) with
        | error e => rw [hp] at h; cases h
        | ok recs' =>
          rw [hp] at h
          cases h
          simp [hmod, ih _ _ hp]
    · simp only [processFrames, if_neg hmod] at h
      simp [hmod, ih _ _ h]

/-- Every record of a successful loop run carries the timestamp
`frame_number / fps` and the detections and encoded image of one of the
frames read. -/
lemma processFrames_ok_mem (env : Env) (fps : Int) (interval : Nat) :
    ∀ (l : List RawFrame) (i : Nat) (recs : List FrameRecord),
      processFrames env fps interval l i = .ok recs →
      ∀ r ∈ recs,
        r.timestamp = (r.frame_number : ℚ) / (fps : ℚ) ∧
        ∃ f ∈ l, env.detect (env.cvtColor f) = .ok r.detections ∧
          r.frame_image = env.encodeJpegB64 f := by
  intro l
  induction l with
  | nil =>
    intro i recs h
    simp only [processFrames] at h
    cases h
    simp
  | cons f rest ih =>
    intro i recs h
    by_cases hmod : i % interval = 0
    · simp only [processFrames, if_pos hmod] at h
      cases hd : env.detect (env.cvtColor f) with
      | error e => rw [hd] at h; cases h
      | ok dets =>
        rw [hd] at h
        cases hp : processFrames env fps interval rest (i + 1) with
        | error e => rw [hp] at h; cases h
        | ok recs' =>
          rw [hp] at h
          cases h
          intro r hr
          rcases List.mem_cons.mp hr with hr | hr
          · subst hr
            exact ⟨rfl, f, List.mem_cons_self f rest, hd, rfl⟩
          · rcases ih _ _ hp r hr with ⟨ht, g, hg, hdet, him⟩
            exact ⟨ht, g, List.mem_cons_of_mem f hg, hdet, him⟩
    · simp only [processFrames, if_neg hmod] at h
      intro r hr
      rcases ih _ _ h r hr with ⟨ht, g, hg, hdet, him⟩
      exact ⟨ht, g, List.mem_cons_of_mem f hg, hdet, him⟩

/-- If the detector succeeds on every frame of the video, the loop succeeds. -/
lemma processFrames_total (env : Env) (fps : Int) (interval : Nat) :
    ∀ (l : List RawFrame) (i : Nat),
      (∀ f ∈ l, ∃ d, env.detect (env.cvtColor f) = .ok d) →
      ∃ recs, processFrames env fps interval l i = .ok recs := by
  intro l
  induction l with
  | nil => intro i _; exact ⟨[], rfl⟩
  | cons f rest ih =>
    intro i hdet
    rcases hdet f (List.mem_cons_self f rest) with ⟨d, hd⟩
    rcases ih (i + 1) (fun g hg => hdet g (List.mem_cons_of_mem f hg)) with ⟨recs, hp⟩
    by_cases hmod : i % interval = 0
    · have heq : processFrames env fps interval (f :: rest) i =
          .ok ({ frame_number := i, timestamp := (i : ℚ) / (fps : ℚ),
                 detections := d, frame_image := env.encodeJpegB64 f } :: recs) := by
        simp only [processFrames, if_pos hmod, hd, hp]
      exact ⟨_, heq⟩
    · exact ⟨recs, by simp only [processFrames, if_neg hmod, hp]⟩

/-- If the detector fails on some sampled frame, the whole loop run fails:
every record accumulated for earlier frames is discarded. -/
lemma processFrames_error_of_fail (env : Env) (fps : Int) (interval : Nat) :
    ∀ (l : List RawFrame) (i k : Nat) (hk : k < l.length),
      (i + k) % interval = 0 →
      (∃ e, env.detect (env.cvtColor (l.get ⟨k, hk⟩)) = .error e) →
      ∃ e, processFrames env fps interval l i = .error e := by
  intro l
  induction l with
  | nil => intro i k hk; exact absurd hk (by simp)
  | cons f rest ih =>
    intro i k hk hsel hfail
    cases k with
    | zero =>
      rcases hfail with ⟨e, he⟩
      simp only [List.get] at he
      have hmod : i % interval = 0 := by simpa using hsel
      exact ⟨e, by simp only [processFrames, if_pos hmod, he]⟩
    | succ k' =>
      have hk' : k' < rest.length := by simpa using hk
      have hsel' : (i + 1 + k') % interval = 0 := by
        have : i + 1 + k' = i + (k' + 1) := by omega
        rw [this]; exact hsel
      have hfail' : ∃ e, env.detect (env.cvtColor (rest.get ⟨k', hk'⟩)) = .error e := by
        simpa using hfail
      rcases ih (i + 1) k' hk' hsel' hfail' with ⟨e, hp⟩
      by_cases hmod : i % interval = 0
      · cases hd : env.detect (env.cvtColor f) with
        | error e' => exact ⟨e', by simp only [processFrames, if_pos hmod, hd]⟩
        | ok dets => exact ⟨e, by simp only [processFrames, if_pos hmod, hd, hp]⟩
      · exact ⟨e, by simp only [processFrames, if_neg hmod, hp]⟩

/-- The loop result, with the encoded images stripped from the records,
depends only on the detector and the colour conversion, not on the image
encoder. -/
lemma processFrames_congr_strip (env₁ env₂ : Env)
    (hd : env₁.detect = env₂.detect) (hc : env₁.cvtColor = env₂.cvtColor)
    (fps : Int) (interval : Nat) :
    ∀ (l : List RawFrame) (i : Nat),
      (processFrames env₁ fps interval l i).map (List.map stripRecord)
        = (processFrames env₂ fps interval l i).map (List.map stripRecord) := by
  intro l
  induction l with
  | nil => intro i; simp [processFrames]
  | cons f rest ih =>
    intro i
    by_cases hmod : i % interval = 0
    · simp only [processFrames, if_pos hmod, hd, hc]
      cases hdet : env₂.detect (env₂.cvtColor f) with
      | error e => simp
      | ok dets =>
        have hrest := ih (i + 1)
        cases hp1 : processFrames env₁ fps interval rest (i + 1) with
        | error e1 =>
          cases hp2 : processFrames env₂ fps interval rest (i + 1) with
          | error e2 =>
            rw [hp1, hp2] at hrest
            rw [exceptMap_error, exceptMap_error] at hrest
            cases hrest
            simp [exceptMap_error]
          | ok recs2 =>
            rw [hp1, hp2] at hrest
            rw [exceptMap_error, exceptMap_ok] at hrest
            cases hrest
        | ok recs1 =>
          cases hp2 : processFrames env₂ fps interval rest (i + 1) with
          | error e2 =>
            rw [hp1, hp2] at hrest
            rw [exceptMap_ok, exceptMap_error] at hrest
            cases hrest
          | ok recs2 =>
            rw [hp1, hp2] at hrest
            rw [exceptMap_ok, exceptMap_ok] at hrest
            have hmaps : recs1.map stripRecord = recs2.map stripRecord := by
              injection hrest
            rw [exceptMap_ok, exceptMap_ok]
            simp [stripRecord, hmaps]
    · simp only [processFrames, if_neg hmod]
      exact ih (i + 1)

/-- Concrete run of the handler on `capW2` with the trivial detector. -/
lemma predictW3_run : (predict_video_frames envTriv capW2).1 = .ok respW3 := by
  simp [predict_video_frames, processFrames, frame_interval_of, envTriv, capW2,
    respW3, VideoCapture.total_frames]
  rfl

/-- On every failing run the temporary file is still present when the
handler returns: `os.unlink` is reached only on the success path. -/
lemma tmpfile_present_of_error (env : Env) (c : VideoCapture) (e : String)
    (h : (predict_video_frames env c).1 = .error e) :
    (predict_video_frames env c).2 = true := by
  by_cases hne : c.fps = 0
  · simp [predict_video_frames, hne]
  · cases hp : processFrames env c.fps (frame_interval_of c.fps).toNat c.frames 0 with
    | error e' => simp [predict_video_frames, hne, hp]
    | ok recs => simp [predict_video_frames, hne, hp] at h

/-! Claim theorems. -/

/-- C1: claimed, the temporary file holding the uploaded bytes is deleted on
every exit path.  The code deletes it only on the success path (`os.unlink`
at line 199 is inside the `try` body, after the loop); on the failure path —
here a corrupt upload, for which the capture reports fps 0 and line 150
raises `ZeroDivisionError` — the handler returns HTTP 500 and the temporary
file still exists. -/
theorem C1_tempfile_leaked_on_failure :
    (predict_video_frames envTriv { fps := 0, frames := [] }).1
        = .error "division by zero" ∧
      (predict_video_frames envTriv { fps := 0, frames := [] }).2 = true :=
  ⟨rfl, rfl⟩

/-- C2: for every valid video (positive reported fps) whose frames the
detector handles without raising, the handler succeeds, the returned
`frame_interval` equals `max(1, fps // 2)` and is at least 1, a frame at
sequential index `i` yields a `FrameRecord` iff `i mod frame_interval = 0`
(for `i` within the decoded frames), and a video with at least one decodable
frame always has frame 0 analysed. -/
theorem C2_sampling_interval (env : Env) (c : VideoCapture)
    (hfps : 0 < c.fps)
    (hdet : ∀ f ∈ c.frames, ∃ d, env.detect (env.cvtColor f) = .ok d) :
    ∃ r, (predict_video_frames env c).1 = .ok r ∧
      r.frame_interval = max 1 (Int.fdiv c.fps 2) ∧
      1 ≤ r.frame_interval ∧
      (∀ i : Nat,
        (∃ rec ∈ r.frames, rec.frame_number = i) ↔
          i < c.frames.length ∧ i % r.frame_interval.toNat = 0) ∧
      (c.frames ≠ [] → ∃ rec ∈ r.frames, rec.frame_number = 0) := by
  have hne : c.fps ≠ 0 := by omega
  rcases processFrames_total env c.fps (frame_interval_of c.fps).toNat c.frames 0 hdet
    with ⟨recs, hp⟩
  have hrun : (predict_video_frames env c).1 =
      .ok { success := true, fps := c.fps, total_frames := c.total_frames,
            duration := (c.total_frames : ℚ) / (c.fps : ℚ),
            frame_interval := frame_interval_of c.fps, frames := recs,
            message := "Processed " ++ toString recs.length ++ " frames" } := by
    simp only [predict_video_frames, if_neg hne, hp]
  have hmap := processFrames_ok_map env c.fps (frame_interval_of c.fps).toNat
    c.frames 0 recs hp
  have hiff : ∀ i : Nat,
      (∃ rec ∈ recs, rec.frame_number = i) ↔
        i < c.frames.length ∧ i % (frame_interval_of c.fps).toNat = 0 := by
    intro i
    constructor
    · rintro ⟨rec, hrec, hnum⟩
      have hmem : i ∈ recs.map FrameRecord.frame_number :=
        hnum ▸ List.mem_map_of_mem FrameRecord.frame_number hrec
      rw [hmap] at hmem
      rcases List.mem_filter.mp hmem with ⟨hmem', hpred⟩
      rcases List.mem_range'_1.mp hmem' with ⟨_, hlt⟩
      exact ⟨by omega, by simpa using hpred⟩
    · rintro ⟨hlt, hmod⟩
      have hmem : i ∈ recs.map FrameRecord.frame_number := by
        rw [hmap]
        exact List.mem_filter.mpr
          ⟨List.mem_range'_1.mpr ⟨Nat.zero_le i, by omega⟩, by simpa using hmod⟩
      rcases List.mem_map.mp hmem with ⟨rec, hrec, hnum⟩
      exact ⟨rec, hrec, hnum⟩
  refine ⟨_, hrun, rfl, le_max_left 1 _, hiff, ?_⟩
  intro hnil
  exact (hiff 0).mpr ⟨List.length_pos.mpr hnil, Nat.zero_mod _⟩

/-- C3: in every successful response the `frames` array is strictly
increasing by `frame_number` with no duplicates; its frame numbers are
exactly the indices of `[0, total_frames)` selected by the sampling
predicate, so every emitted frame number is below the reported
`total_frames`. -/
theorem C3_frames_sorted (env : Env) (c : VideoCapture) (r : FramesResponse)
    (hok : (predict_video_frames env c).1 = .ok r) :
    (r.frames.map FrameRecord.frame_number).Pairwise (· < ·) ∧
      r.frames.map FrameRecord.frame_number
        = (List.range r.total_frames).filter
            (fun i => i % r.frame_interval.toNat == 0) ∧
      (∀ rec ∈ r.frames, rec.frame_number < r.total_frames) := by
  rcases predict_ok_inv env c r hok with ⟨hne, hp, _, _, htot, _, hint⟩
  have hmap := processFrames_ok_map env c.fps (frame_interval_of c.fps).toNat
    c.frames 0 r.frames hp
  have hrange : List.range r.total_frames = List.range' 0 c.frames.length := by
    rw [htot, List.range_eq_range']
  refine ⟨?_, ?_, ?_⟩
  · rw [hmap]
    exact (List.pairwise_lt_range' 0 c.frames.length).filter _
  · rw [hmap, hint, hrange]
  · intro rec hrec
    have hmem : rec.frame_number ∈ r.frames.map FrameRecord.frame_number :=
      List.mem_map_of_mem FrameRecord.frame_number hrec
    rw [hmap] at hmem
    rcases List.mem_filter.mp hmem with ⟨hmem', _⟩
    rcases List.mem_range'_1.mp hmem' with ⟨_, hlt⟩
    rw [htot]
    omega

/-- C4: claimed, a zero or negative reported frame rate always surfaces as a
failure response and never yields a success payload.  The code reaches a 500
only for fps = 0 (via the unguarded division at line 150); a negative
reported fps flows through `max(1, fps // 2) = 1` and produces a success
payload, contradicting the claim. -/
theorem C4_negative_fps_silent_success :
    ∃ r, (predict_video_frames envTriv { fps := -1, frames := [9] }).1 = .ok r ∧
      r.success = true ∧ r.fps = -1 ∧ r.frame_interval = 1 ∧
      r.frames.length = 1 := by
  have hint : frame_interval_of (-1) = 1 := rfl
  refine ⟨{ success := true, fps := -1, total_frames := 1,
            duration := -1, frame_interval := 1,
            frames := [{ frame_number := 0, timestamp := 0, detections := [],
                         frame_image := "" }],
            message := "Processed 1 frames" }, ?_, rfl, rfl, rfl, rfl⟩
  have hp : processFrames envTriv (-1) 1 [9] 0 =
      .ok [{ frame_number := 0, timestamp := 0, detections := [],
             frame_image := "" }] := by
    simp [processFrames, envTriv]
  have hne : (-1 : Int) ≠ 0 := by decide
  simp only [predict_video_frames, show ({ fps := -1, frames := [9] } :
    VideoCapture).fps = -1 from rfl, if_neg hne, hint]
  rw [show (1 : Int).toNat = 1 from rfl]
  rw [hp]
  norm_num [VideoCapture.total_frames]
  rfl

/-- C5: in every successful response, each record's `timestamp` equals
`frame_number / fps` and the top-level `duration` equals
`total_frames / fps`, all with the fps and total reported by the capture. -/
theorem C5_timestamps (env : Env) (c : VideoCapture) (r : FramesResponse)
    (hok : (predict_video_frames env c).1 = .ok r) :
    (∀ rec ∈ r.frames, rec.timestamp = (rec.frame_number : ℚ) / (r.fps : ℚ)) ∧
      r.duration = (r.total_frames : ℚ) / (r.fps : ℚ) := by
  rcases predict_ok_inv env c r hok with ⟨hne, hp, _, hfps, htot, hdur, _⟩
  constructor
  · intro rec hrec
    have ht := (processFrames_ok_mem env c.fps (frame_interval_of c.fps).toNat
      c.frames 0 r.frames hp rec hrec).1
    rw [hfps]
    exact ht
  · rw [hdur, hfps, htot]

/-- C6: a 10-second video at 30 fps with 300 decodable frames, on a detector
that raises on no frame, yields `frame_interval = 15` and exactly 20 records
with frame numbers 0, 15, ..., 285. -/
theorem C6_scenario_300 (env : Env) (c : VideoCapture)
    (hfps : c.fps = 30) (hlen : c.frames.length = 300)
    (hdet : ∀ f ∈ c.frames, ∃ d, env.detect (env.cvtColor f) = .ok d) :
    ∃ r, (predict_video_frames env c).1 = .ok r ∧
      r.frame_interval = 15 ∧ r.frames.length = 20 ∧
      r.frames.map FrameRecord.frame_number
        = (List.range 20).map (fun k => 15 * k) := by
  have hne : c.fps ≠ 0 := by rw [hfps]; decide
  rcases processFrames_total env c.fps (frame_interval_of c.fps).toNat c.frames 0 hdet
    with ⟨recs, hp⟩
  have hrun : (predict_video_frames env c).1 =
      .ok { success := true, fps := c.fps, total_frames := c.total_frames,
            duration := (c.total_frames : ℚ) / (c.fps : ℚ),
            frame_interval := frame_interval_of c.fps, frames := recs,
            message := "Processed " ++ toString recs.length ++ " frames" } := by
    simp only [predict_video_frames, if_neg hne, hp]
  have hmap := processFrames_ok_map env c.fps (frame_interval_of c.fps).toNat
    c.frames 0 recs hp
  have hint : frame_interval_of c.fps = 15 := by rw [hfps]; rfl
  rw [hlen, hint] at hmap
  have hconc : (List.range' 0 300).filter (fun j => j % (15 : Int).toNat == 0)
      = (List.range 20).map (fun k => 15 * k) := by decide
  refine ⟨_, hrun, hint, ?_, hmap.trans hconc⟩
  have hlen20 := congrArg List.length (hmap.trans hconc)
  simpa using hlen20

/-- C7: when the detector returns zero detections on every sampled frame,
every sampled index still gets a `FrameRecord`, with an empty detections
list — sampled frames are never omitted for lack of detections. -/
theorem C7_no_detections_still_recorded (env : Env) (c : VideoCapture)
    (hfps : c.fps ≠ 0)
    (hdet : ∀ f ∈ c.frames, env.detect (env.cvtColor f) = .ok []) :
    ∃ r, (predict_video_frames env c).1 = .ok r ∧
      (∀ i : Nat, i < c.frames.length → i % r.frame_interval.toNat = 0 →
        ∃ rec ∈ r.frames, rec.frame_number = i ∧ rec.detections = []) := by
  rcases processFrames_total env c.fps (frame_interval_of c.fps).toNat c.frames 0
    (fun f hf => ⟨[], hdet f hf⟩) with ⟨recs, hp⟩
  have hrun : (predict_video_frames env c).1 =
      .ok { success := true, fps := c.fps, total_frames := c.total_frames,
            duration := (c.total_frames : ℚ) / (c.fps : ℚ),
            frame_interval := frame_interval_of c.fps, frames := recs,
            message := "Processed " ++ toString recs.length ++ " frames" } := by
    simp only [predict_video_frames, if_neg hfps, hp]
  have hmap := processFrames_ok_map env c.fps (frame_interval_of c.fps).toNat
    c.frames 0 recs hp
  have hdets : ∀ rec ∈ recs, rec.detections = [] := by
    intro rec hrec
    rcases (processFrames_ok_mem env c.fps (frame_interval_of c.fps).toNat
      c.frames 0 recs hp rec hrec).2 with ⟨f, hf, hd, _⟩
    rw [hdet f hf] at hd
    injection hd with hd'
    exact hd'.symm
  refine ⟨_, hrun, ?_⟩
  intro i hlt hmod
  have hmem : i ∈ recs.map FrameRecord.frame_number := by
    rw [hmap]
    exact List.mem_filter.mpr
      ⟨List.mem_range'_1.mpr ⟨Nat.zero_le i, by omega⟩, by simpa using hmod⟩
  rcases List.mem_map.mp hmem with ⟨rec, hrec, hnum⟩
  exact ⟨rec, hrec, hnum, hdets rec hrec⟩

/-- C8: if the detector raises on any single sampled frame, the whole
request fails with a 500 and no success payload: records already built for
earlier sampled frames are discarded, never returned as partial success. -/
theorem C8_abort_on_detector_error (env : Env) (c : VideoCapture) (i : Nat)
    (hi : i < c.frames.length)
    (hsel : i % (frame_interval_of c.fps).toNat = 0)
    (hfail : ∃ e, env.detect (env.cvtColor (c.frames.get ⟨i, hi⟩)) = .error e) :
    (∃ e, (predict_video_frames env c).1 = .error e) ∧
      ∀ r : FramesResponse, (predict_video_frames env c).1 ≠ .ok r := by
  by_cases hne : c.fps = 0
  · refine ⟨⟨"division by zero", by simp [predict_video_frames, hne]⟩, ?_⟩
    intro r h
    simp [predict_video_frames, hne] at h
  · rcases processFrames_error_of_fail env c.fps (frame_interval_of c.fps).toNat
      c.frames 0 i hi (by simpa using hsel) hfail with ⟨e, hp⟩
    refine ⟨⟨e, by simp [predict_video_frames, hne, hp]⟩, ?_⟩
    intro r h
    simp [predict_video_frames, hne, hp] at h

/-- C9: the handler introduces no nondeterminism of its own: for the same
capture, the same detector and the same colour conversion, two runs agree on
every field of the response — and on whether the temporary file survives —
except possibly the encoded `frame_image` strings, the only part produced by
the (possibly nondeterministic) image encoder. -/
theorem C9_no_pipeline_nondeterminism (env₁ env₂ : Env) (c : VideoCapture)
    (hd : env₁.detect = env₂.detect) (hc : env₁.cvtColor = env₂.cvtColor) :
    (predict_video_frames env₁ c).1.map stripResp
        = (predict_video_frames env₂ c).1.map stripResp ∧
      (predict_video_frames env₁ c).2 = (predict_video_frames env₂ c).2 := by
  by_cases hne : c.fps = 0
  · simp [predict_video_frames, hne]
  · have hcongr := processFrames_congr_strip env₁ env₂ hd hc c.fps
      (frame_interval_of c.fps).toNat c.frames 0
    cases hp1 : processFrames env₁ c.fps (frame_interval_of c.fps).toNat c.frames 0 with
    | error e1 =>
      cases hp2 : processFrames env₂ c.fps (frame_interval_of c.fps).toNat c.frames 0 with
      | error e2 =>
        rw [hp1, hp2, exceptMap_error, exceptMap_error] at hcongr
        cases hcongr
        exact ⟨by simp [predict_video_frames, hne, hp1, hp2],
               by simp [predict_video_frames, hne, hp1, hp2]⟩
      | ok recs2 =>
        rw [hp1, hp2, exceptMap_error, exceptMap_ok] at hcongr
        cases hcongr
    | ok recs1 =>
      cases hp2 : processFrames env₂ c.fps (frame_interval_of c.fps).toNat c.frames 0 with
      | error e2 =>
        rw [hp1, hp2, exceptMap_ok, exceptMap_error] at hcongr
        cases hcongr
      | ok recs2 =>
        rw [hp1, hp2, exceptMap_ok, exceptMap_ok] at hcongr
        have hmaps : recs1.map stripRecord = recs2.map stripRecord := by
          injection hcongr
        have hlen : recs1.length = recs2.length := by
          have hl := congrArg List.length hmaps
          simpa using hl
        constructor
        · simp only [predict_video_frames, if_neg hne, hp1, hp2]
          rw [exceptMap_ok, exceptMap_ok]
          simp [stripResp, hmaps, hlen]
        · simp [predict_video_frames, hne, hp1, hp2]

/-- C10: a decodable video reporting a positive frame rate but yielding no
decodable frames is not an error: the handler returns a success payload with
an empty `frames` array, `duration = 0` and the message that 0 frames were
processed; moreover every 200 response of the handler has `success = true`. -/
theorem C10_empty_video_success (env : Env) (c : VideoCapture)
    (hfps : 0 < c.fps) (hempty : c.frames = []) :
    (predict_video_frames env c).1 =
      .ok { success := true, fps := c.fps, total_frames := 0, duration := 0,
            frame_interval := frame_interval_of c.fps, frames := [],
            message := "Processed 0 frames" } ∧
      ∀ (envA : Env) (cA : VideoCapture) (r : FramesResponse),
        (predict_video_frames envA cA).1 = .ok r → r.success = true := by
  constructor
  · have hne : c.fps ≠ 0 := by omega
    have hp : processFrames env c.fps (frame_interval_of c.fps).toNat c.frames 0 =
        .ok [] := by rw [hempty]; rfl
    simp only [predict_video_frames, if_neg hne, hp]
    simp [VideoCapture.total_frames, hempty]
    rfl
  · intro envA cA r h
    exact (predict_ok_inv envA cA r h).2.2.1

/-! Witnesses: each applies its claim's theorem at a concrete input. -/

/-- C2 witness: the sampling theorem at `envTriv` and `capW2`. -/
theorem C2_sampling_interval_witness :
    ∃ r, (predict_video_frames envTriv capW2).1 = .ok r ∧
      r.frame_interval = max 1 (Int.fdiv capW2.fps 2) ∧
      1 ≤ r.frame_interval ∧
      (∀ i : Nat,
        (∃ rec ∈ r.frames, rec.frame_number = i) ↔
          i < capW2.frames.length ∧ i % r.frame_interval.toNat = 0) ∧
      (capW2.frames ≠ [] → ∃ rec ∈ r.frames, rec.frame_number = 0) :=
  C2_sampling_interval envTriv capW2 (by decide) (fun _ _ => ⟨[], rfl⟩)

/-- C3 witness: the invariants at the concrete run on `capW2`. -/
theorem C3_frames_sorted_witness :
    (respW3.frames.map FrameRecord.frame_number).Pairwise (· < ·) ∧
      respW3.frames.map FrameRecord.frame_number
        = (List.range respW3.total_frames).filter
            (fun i => i % respW3.frame_interval.toNat == 0) ∧
      (∀ rec ∈ respW3.frames, rec.frame_number < respW3.total_frames) :=
  C3_frames_sorted envTriv capW2 respW3 predictW3_run

/-- C5 witness: the timestamp equations at the concrete run on `capW2`. -/
theorem C5_timestamps_witness :
    (∀ rec ∈ respW3.frames,
        rec.timestamp = (rec.frame_number : ℚ) / (respW3.fps : ℚ)) ∧
      respW3.duration = (respW3.total_frames : ℚ) / (respW3.fps : ℚ) :=
  C5_timestamps envTriv capW2 respW3 predictW3_run

/-- C6 witness: the 30 fps / 300 frames scenario at a concrete capture. -/
theorem C6_scenario_300_witness :
    ∃ r, (predict_video_frames envTriv cap300).1 = .ok r ∧
      r.frame_interval = 15 ∧ r.frames.length = 20 ∧
      r.frames.map FrameRecord.frame_number
        = (List.range 20).map (fun k => 15 * k) :=
  C6_scenario_300 envTriv cap300 rfl (List.length_replicate 300 0) (fun _ _ => ⟨[], rfl⟩)

/-- C7 witness: the zero-detections scenario at `envTriv` and `capW2`. -/
theorem C7_no_detections_witness :
    ∃ r, (predict_video_frames envTriv capW2).1 = .ok r ∧
      (∀ i : Nat, i < capW2.frames.length → i % r.frame_interval.toNat = 0 →
        ∃ rec ∈ r.frames, rec.frame_number = i ∧ rec.detections = []) :=
  C7_no_detections_still_recorded envTriv capW2 (by decide) (fun _ _ => rfl)

/-- C8 witness: a failing detector on the only (sampled) frame aborts the
request. -/
theorem C8_abort_witness :
    (∃ e, (predict_video_frames envFail capW2).1 = .error e) ∧
      ∀ r : FramesResponse, (predict_video_frames envFail capW2).1 ≠ .ok r :=
  C8_abort_on_detector_error envFail capW2 0 (by decide) rfl
    ⟨"detector unavailable", rfl⟩

/-- C9 witness: two runs differing only in the image encoder. -/
theorem C9_no_pipeline_nondeterminism_witness :
    (predict_video_frames envTriv capW2).1.map stripResp
        = (predict_video_frames envEnc capW2).1.map stripResp ∧
      (predict_video_frames envTriv capW2).2
        = (predict_video_frames envEnc capW2).2 :=
  C9_no_pipeline_nondeterminism envTriv envEnc capW2 rfl rfl

/-- C10 witness: the empty 30 fps capture. -/
theorem C10_empty_video_success_witness :
    (predict_video_frames envTriv capEmpty).1 =
      .ok { success := true, fps := capEmpty.fps, total_frames := 0,
            duration := 0, frame_interval := frame_interval_of capEmpty.fps,
            frames := [], message := "Processed 0 frames" } ∧
      ∀ (envA : Env) (cA : VideoCapture) (r : FramesResponse),
        (predict_video_frames envA cA).1 = .ok r → r.success = true :=
  C10_empty_video_success envTriv capEmpty (by decide) rfl

end App
